import Mathlib

/-!
Verification of the setprotocol.js client library's contract-resolution
cache and API facade layer against its design specification.

The definitions below are a shallow embedding of the TypeScript sources:

* `ProtocolContractWrapper` (src/wrappers/set_protocol/ProtocolContractWrapper.ts)
  becomes a pure state-passing function `loadContract` over a `WrapperState`
  holding the string-keyed cache and a counter modelling JavaScript object
  identity (each `Contract.at` construction yields a fresh `id`).
* `ERC20API` (the ERC20 facade) becomes `Except`-valued functions whose
  error constructors model the synchronous schema-assertion throws; a value
  of type `RemoteCall` describes the remote invocation the facade would
  issue after successful validation.
* `ProtocolViewerWrapper` batch reads become pointwise maps over an
  abstract chain oracle.
* Pieces of the repository whose implementation files are not present
  (the rebalancing facade's reshaping and state-gate error strings, the
  BTCETH manager's allocation gate, the rebalancing-set issuance module's
  accounting) are modelled from the specification and the integration
  tests, and are marked as such in their doc comments.
-/

/-! ## Contract resolver (ProtocolContractWrapper.ts) -/

/-- The contract kinds ("ABI names") that `ProtocolContractWrapper` can load,
one per public loader method of the class. -/
inductive ContractKind where
  | Core
  | SetToken
  | RebalancingSetToken
  | ERC20Token
  | Vault
  | TransferProxy
  | RebalanceAuctionModule
  | KyberNetworkWrapper
  | RebalancingSetExchangeIssuanceModule
  | RebalancingSetIssuanceModule
  | Authorizable
  | TimeLockUpgrade
  | WhiteList
  | ExchangeIssuanceModule
  | Medianizer
  | ProtocolViewer
deriving DecidableEq

/-- The cache key string each loader computes, transcribed from each
loader's `cacheKey` line in ProtocolContractWrapper.ts.  Note that
`loadTransferProxyAsync` (line 195) computes `Vault_${transferProxyAddress}`,
not `TransferProxy_${transferProxyAddress}`. -/
def cacheKey : ContractKind → String → String
  | .Core, a => "Core_" ++ a
  | .SetToken, a => "SetToken_" ++ a
  | .RebalancingSetToken, a => "RebalancingSetToken_" ++ a
  | .ERC20Token, a => "ERC20Token_" ++ a
  | .Vault, a => "Vault_" ++ a
  | .TransferProxy, a => "Vault_" ++ a
  | .RebalanceAuctionModule, a => "RebalanceAuctionModule_" ++ a
  | .KyberNetworkWrapper, a => "KyberNetworkWrapper_" ++ a
  | .RebalancingSetExchangeIssuanceModule, a => "RebalancingSetExchangeIssuanceModule_" ++ a
  | .RebalancingSetIssuanceModule, a => "RebalancingSetIssuanceModule_" ++ a
  | .Authorizable, a => "Authorizable_" ++ a
  | .TimeLockUpgrade, a => "TimeLockUpgrade_" ++ a
  | .WhiteList, a => "WhiteList_" ++ a
  | .ExchangeIssuanceModule, a => "ExchangeIssuanceModule_" ++ a
  | .Medianizer, a => "Medianizer_" ++ a
  | .ProtocolViewer, a => "ProtocolViewer_" ++ a

/-- A typed contract handle.  `id` models JavaScript reference identity:
two handles are the same object exactly when their `id`s agree, because
each `Contract.at` construction is given a fresh `id`.  `kind` records
which generated contract class's `at` constructed the object (the `as`
casts in the cache-hit branches do not change the underlying object). -/
structure Handle where
  id : Nat
  kind : ContractKind
  address : String
deriving DecidableEq

/-- State of one `ProtocolContractWrapper` instance: the `cache` object
(a string-keyed map, modelled as an association list with most recent
insertion first) and the number of handle constructions performed so far
(the source of fresh `id`s). -/
structure WrapperState where
  cache : List (String × Handle)
  nextId : Nat
deriving DecidableEq

/-- The state of a freshly constructed `ProtocolContractWrapper`
(`this.cache = {}`). -/
def WrapperState.empty : WrapperState := ⟨[], 0⟩

/-- Shared shape of every `loadXAsync` loader of `ProtocolContractWrapper`:
compute the `cacheKey`, return the cached handle if the key is present,
otherwise construct a fresh handle via the external `Contract.at`
(which binds the address and ABI without any validity or existence
check), store it under the key and return it. -/
def loadContract (k : ContractKind) (a : String) (st : WrapperState) :
    Handle × WrapperState :=
  let key := cacheKey k a
  match st.cache.lookup key with
  | some h => (h, st)
  | none =>
      let h : Handle := ⟨st.nextId, k, a⟩
      (h, ⟨(key, h) :: st.cache, st.nextId + 1⟩)

theorem lookup_cons_self (h : Handle) (key : String) (rest : List (String × Handle)) :
    ((key, h) :: rest).lookup key = some h := by
  simp [List.lookup]

/-- C2. Two successive loads of the same (kind, address) pair against the
same wrapper return the same handle object, and the second call performs
no new construction: it returns the cache entry and leaves the state
(including the construction counter) untouched. -/
theorem loadContract_memoized_idempotent (k : ContractKind) (a : String)
    (st : WrapperState) :
    loadContract k a (loadContract k a st).2 =
      ((loadContract k a st).1, (loadContract k a st).2) := by
  unfold loadContract
  cases hl : st.cache.lookup (cacheKey k a) with
  | some h => simp [hl]
  | none => simp [hl, lookup_cons_self]

/-- C1 (counterexample evaluation). Because `loadTransferProxyAsync` keys its
cache entry by `Vault_${address}` (ProtocolContractWrapper.ts line 195), a
`loadVaultAsync` followed by a `loadTransferProxyAsync` at the same address
is a cache hit: the TransferProxy caller receives the very handle that was
constructed with the Vault ABI (same object `id`, `kind = Vault`), no second
handle is constructed, and the two composite keys coincide.  This violates
the invariant that handles for two distinct kinds at one address are
distinct. -/
theorem transferProxy_vault_cache_collision :
    cacheKey .TransferProxy "0x1111111111111111111111111111111111111111" =
      cacheKey .Vault "0x1111111111111111111111111111111111111111" ∧
    (loadContract .TransferProxy "0x1111111111111111111111111111111111111111"
        (loadContract .Vault "0x1111111111111111111111111111111111111111"
          WrapperState.empty).2).1 =
      (loadContract .Vault "0x1111111111111111111111111111111111111111"
        WrapperState.empty).1 ∧
    (loadContract .Vault "0x1111111111111111111111111111111111111111"
        WrapperState.empty).1.kind = ContractKind.Vault ∧
    (loadContract .TransferProxy "0x1111111111111111111111111111111111111111"
        (loadContract .Vault "0x1111111111111111111111111111111111111111"
          WrapperState.empty).2).2.nextId = 1 := by
  refine ⟨rfl, ?_, rfl, ?_⟩ <;> rfl

/-! ## Address validation and the ERC20 facade (ERC20API) -/

/-- Modelled from the spec: all address-typed fields must match the
fixed-length hexadecimal chain-address pattern (`0x` followed by 40
hexadecimal digits).  The schema-validation library enforcing this is an
external collaborator of the repository; only its observable predicate is
modelled here. -/
def isValidAddress (s : String) : Bool :=
  match s.data with
  | '0' :: 'x' :: rest =>
      rest.length == 40 && rest.all (fun c => ("0123456789abcdefABCDEF".data).contains c)
  | _ => false

/-- A local validation error thrown by the schema assertions, carrying the
name of the offending argument and its value. -/
structure ValErr where
  argName : String
  value : String
deriving DecidableEq

/-- One `assert.schema.isValidAddress(name, value)` call: throws a local
validation error naming the argument when the value fails the address
pattern. -/
def checkAddress (argName s : String) : Except ValErr Unit :=
  if isValidAddress s then Except.ok () else Except.error ⟨argName, s⟩

/-- A `forEach` of address checks over a list-valued argument, as in
`assertGetBalancesOf` and `assertGetTotalSuppliesAsync`. -/
def checkAddressList (argName : String) : List String → Except ValErr Unit
  | [] => Except.ok ()
  | s :: rest => do
      checkAddress argName s
      checkAddressList argName rest

/-- Transaction metadata (`Tx`): sender, gas, gas price.  The facade
forwards it to the transport untouched and never validates it. -/
structure Tx where
  sender : Option String
  gas : Option Nat
  gasPrice : Option Nat
deriving DecidableEq

/-- Description of the single remote invocation an ERC20 facade method
issues after its local assertions succeed (the wrapper method and the
arguments forwarded to it). -/
inductive RemoteCall where
  | balanceOf (tokenAddress userAddress : String)
  | batchFetchBalancesOf (tokenAddresses : List String) (userAddress : String)
  | nameOf (tokenAddress : String)
  | symbolOf (tokenAddress : String)
  | totalSupply (tokenAddress : String)
  | batchFetchSupplies (tokenAddresses : List String)
  | decimals (tokenAddress : String)
  | allowance (tokenAddress ownerAddress spenderAddress : String)
  | transfer (tokenAddress toAddress : String) (value : Nat) (txOpts : Tx)
  | transferFrom (tokenAddress fromAddress toAddress : String) (value : Nat) (txOpts : Tx)
  | approve (tokenAddress spenderAddress : String) (value : Nat) (txOpts : Tx)
deriving DecidableEq

/-- `ERC20API.assertGetBalanceOf`. -/
def assertGetBalanceOf (tokenAddress userAddress : String) : Except ValErr Unit := do
  checkAddress "tokenAddress" tokenAddress
  checkAddress "userAddress" userAddress

/-- `ERC20API.assertGetBalancesOf`: `userAddress` first, then each entry of
the token list. -/
def assertGetBalancesOf (tokenAddresses : List String) (userAddress : String) :
    Except ValErr Unit := do
  checkAddress "userAddress" userAddress
  checkAddressList "tokenAddress" tokenAddresses

/-- `ERC20API.assertGetAllowance`. -/
def assertGetAllowance (tokenAddress ownerAddress spenderAddress : String) :
    Except ValErr Unit := do
  checkAddress "tokenAddress" tokenAddress
  checkAddress "ownerAddress" ownerAddress
  checkAddress "spenderAddress" spenderAddress

/-- `ERC20API.assertTransfer`. -/
def assertTransfer (tokenAddress toAddress : String) : Except ValErr Unit := do
  checkAddress "tokenAddress" tokenAddress
  checkAddress "to" toAddress

/-- `ERC20API.assertTransferFrom`. -/
def assertTransferFrom (tokenAddress fromAddress toAddress : String) :
    Except ValErr Unit := do
  checkAddress "tokenAddress" tokenAddress
  checkAddress "from" fromAddress
  checkAddress "to" toAddress

/-- `ERC20API.assertApprove`. -/
def assertApprove (tokenAddress spenderAddress : String) : Except ValErr Unit := do
  checkAddress "tokenAddress" tokenAddress
  checkAddress "spenderAddress" spenderAddress

/-- `ERC20API.assertGetTotalSuppliesAsync`. -/
def assertGetTotalSuppliesAsync (tokenAddresses : List String) : Except ValErr Unit :=
  checkAddressList "tokenAddress" tokenAddresses

/-- `ERC20API.getBalanceOfAsync`: assert, then call the wrapper. -/
def getBalanceOfAsync (tokenAddress userAddress : String) : Except ValErr RemoteCall := do
  assertGetBalanceOf tokenAddress userAddress
  pure (RemoteCall.balanceOf tokenAddress userAddress)

/-- `ERC20API.getBalancesOfAsync`. -/
def getBalancesOfAsync (tokenAddresses : List String) (userAddress : String) :
    Except ValErr RemoteCall := do
  assertGetBalancesOf tokenAddresses userAddress
  pure (RemoteCall.batchFetchBalancesOf tokenAddresses userAddress)

/-- `ERC20API.getNameAsync`. -/
def getNameAsync (tokenAddress : String) : Except ValErr RemoteCall := do
  checkAddress "tokenAddress" tokenAddress
  pure (RemoteCall.nameOf tokenAddress)

/-- `ERC20API.getSymbolAsync`. -/
def getSymbolAsync (tokenAddress : String) : Except ValErr RemoteCall := do
  checkAddress "tokenAddress" tokenAddress
  pure (RemoteCall.symbolOf tokenAddress)

/-- `ERC20API.getTotalSupplyAsync`. -/
def getTotalSupplyAsync (tokenAddress : String) : Except ValErr RemoteCall := do
  checkAddress "tokenAddress" tokenAddress
  pure (RemoteCall.totalSupply tokenAddress)

/-- `ERC20API.getTotalSuppliesAsync`. -/
def getTotalSuppliesAsync (tokenAddresses : List String) : Except ValErr RemoteCall := do
  assertGetTotalSuppliesAsync tokenAddresses
  pure (RemoteCall.batchFetchSupplies tokenAddresses)

/-- `ERC20API.getDecimalsAsync`. -/
def getDecimalsAsync (tokenAddress : String) : Except ValErr RemoteCall := do
  checkAddress "tokenAddress" tokenAddress
  pure (RemoteCall.decimals tokenAddress)

/-- `ERC20API.getAllowanceAsync`. -/
def getAllowanceAsync (tokenAddress ownerAddress spenderAddress : String) :
    Except ValErr RemoteCall := do
  assertGetAllowance tokenAddress ownerAddress spenderAddress
  pure (RemoteCall.allowance tokenAddress ownerAddress spenderAddress)

/-- `ERC20API.transferAsync`. -/
def transferAsync (tokenAddress toAddress : String) (value : Nat) (txOpts : Tx) :
    Except ValErr RemoteCall := do
  assertTransfer tokenAddress toAddress
  pure (RemoteCall.transfer tokenAddress toAddress value txOpts)

/-- `ERC20API.transferFromAsync`. -/
def transferFromAsync (tokenAddress fromAddress toAddress : String) (value : Nat)
    (txOpts : Tx) : Except ValErr RemoteCall := do
  assertTransferFrom tokenAddress fromAddress toAddress
  pure (RemoteCall.transferFrom tokenAddress fromAddress toAddress value txOpts)

/-- `ERC20API.approveAsync`. -/
def approveAsync (tokenAddress spenderAddress : String) (value : Nat) (txOpts : Tx) :
    Except ValErr RemoteCall := do
  assertApprove tokenAddress spenderAddress
  pure (RemoteCall.approve tokenAddress spenderAddress value txOpts)

/-- The public method surface of the ERC20 facade, one constructor per
public method, carrying that method's arguments. -/
inductive ERC20Call where
  | getBalanceOf (tokenAddress userAddress : String)
  | getBalancesOf (tokenAddresses : List String) (userAddress : String)
  | getName (tokenAddress : String)
  | getSymbol (tokenAddress : String)
  | getTotalSupply (tokenAddress : String)
  | getTotalSupplies (tokenAddresses : List String)
  | getDecimals (tokenAddress : String)
  | getAllowance (tokenAddress ownerAddress spenderAddress : String)
  | transfer (tokenAddress toAddress : String) (value : Nat) (txOpts : Tx)
  | transferFrom (tokenAddress fromAddress toAddress : String) (value : Nat) (txOpts : Tx)
  | approve (tokenAddress spenderAddress : String) (value : Nat) (txOpts : Tx)

/-- Dispatch a facade method call to its embedding. -/
def runERC20 : ERC20Call → Except ValErr RemoteCall
  | .getBalanceOf t u => getBalanceOfAsync t u
  | .getBalancesOf ts u => getBalancesOfAsync ts u
  | .getName t => getNameAsync t
  | .getSymbol t => getSymbolAsync t
  | .getTotalSupply t => getTotalSupplyAsync t
  | .getTotalSupplies ts => getTotalSuppliesAsync ts
  | .getDecimals t => getDecimalsAsync t
  | .getAllowance t o s => getAllowanceAsync t o s
  | .transfer t toA v tx => transferAsync t toA v tx
  | .transferFrom t f toA v tx => transferFromAsync t f toA v tx
  | .approve t s v tx => approveAsync t s v tx

/-- The address-typed arguments of each facade method, as (argument name,
value) pairs in the order the method's assertions inspect them. -/
def addressArgs : ERC20Call → List (String × String)
  | .getBalanceOf t u => [("tokenAddress", t), ("userAddress", u)]
  | .getBalancesOf ts u => ("userAddress", u) :: ts.map (fun t => ("tokenAddress", t))
  | .getName t => [("tokenAddress", t)]
  | .getSymbol t => [("tokenAddress", t)]
  | .getTotalSupply t => [("tokenAddress", t)]
  | .getTotalSupplies ts => ts.map (fun t => ("tokenAddress", t))
  | .getDecimals t => [("tokenAddress", t)]
  | .getAllowance t o s =>
      [("tokenAddress", t), ("ownerAddress", o), ("spenderAddress", s)]
  | .transfer t toA _ _ => [("tokenAddress", t), ("to", toA)]
  | .transferFrom t f toA _ _ => [("tokenAddress", t), ("from", f), ("to", toA)]
  | .approve t s _ _ => [("tokenAddress", t), ("spenderAddress", s)]

@[simp] theorem except_ok_bind {ε α β : Type} (a : α) (f : α → Except ε β) :
    (Except.ok a >>= f) = f a := rfl

@[simp] theorem except_error_bind {ε α β : Type} (e : ε) (f : α → Except ε β) :
    ((Except.error e : Except ε α) >>= f) = Except.error e := rfl

@[simp] theorem except_map_error {ε α β : Type} (e : ε) (f : α → β) :
    (f <$> (Except.error e : Except ε α)) = Except.error e := rfl

theorem checkAddress_ok {s : String} (argN : String) (h : isValidAddress s = true) :
    checkAddress argN s = Except.ok () := by
  simp [checkAddress, h]

theorem checkAddress_error {s : String} (argN : String) (h : isValidAddress s = false) :
    checkAddress argN s = Except.error ⟨argN, s⟩ := by
  simp [checkAddress, h]

theorem checkAddressList_error {ss : List String} (argN : String)
    (h : ∃ s ∈ ss, isValidAddress s = false) :
    ∃ v, checkAddressList argN ss = Except.error ⟨argN, v⟩ ∧ v ∈ ss ∧
      isValidAddress v = false := by
  induction ss with
  | nil => simp at h
  | cons s rest ih =>
      by_cases hs : isValidAddress s
      · rcases h with ⟨v, hv, hvf⟩
        rcases List.mem_cons.mp hv with rfl | hv₂
        · rw [hs] at hvf; cases hvf
        · rcases ih ⟨v, hv₂, hvf⟩ with ⟨w, hw, hwm, hwf⟩
          exact ⟨w, by simp [checkAddressList, checkAddress_ok argN hs, hw],
            List.mem_cons_of_mem s hwm, hwf⟩
      · rw [Bool.not_eq_true] at hs
        exact ⟨s, by simp [checkAddressList, checkAddress_error argN hs],
          List.mem_cons_self s rest, hs⟩

/-- C3. Every ERC20 facade method whose address-typed arguments include a
malformed address fails with the local validation error of the schema
assertion, naming an offending address argument; the `Except.error` result
means no `RemoteCall` is produced, so no resolver lookup or network call
is attempted. -/
theorem erc20_invalid_address_rejected_locally (c : ERC20Call)
    (h : ∃ p ∈ addressArgs c, isValidAddress p.2 = false) :
    ∃ e, runERC20 c = Except.error e ∧
      (e.argName, e.value) ∈ addressArgs c ∧ isValidAddress e.value = false := by
  cases c with
  | getBalanceOf t u =>
      by_cases h1 : isValidAddress t
      · by_cases h2 : isValidAddress u
        · exfalso
          rcases h with ⟨p, hp, hpf⟩
          simp [addressArgs] at hp
          rcases hp with rfl | rfl <;> simp_all
        · rw [Bool.not_eq_true] at h2
          refine ⟨⟨"userAddress", u⟩, ?_, by simp [addressArgs], h2⟩
          simp [runERC20, getBalanceOfAsync, assertGetBalanceOf,
            checkAddress_ok _ h1, checkAddress_error _ h2, Except.bind]
      · rw [Bool.not_eq_true] at h1
        refine ⟨⟨"tokenAddress", t⟩, ?_, by simp [addressArgs], h1⟩
        simp [runERC20, getBalanceOfAsync, assertGetBalanceOf,
          checkAddress_error _ h1, Except.bind]
  | getBalancesOf ts u =>
      by_cases h1 : isValidAddress u
      · have hts : ∃ s ∈ ts, isValidAddress s = false := by
          rcases h with ⟨p, hp, hpf⟩
          simp [addressArgs] at hp
          rcases hp with rfl | ⟨t, htm, rfl⟩
          · simp_all
          · exact ⟨t, htm, hpf⟩
        rcases checkAddressList_error "tokenAddress" hts with ⟨v, hv, hvm, hvf⟩
        refine ⟨⟨"tokenAddress", v⟩, ?_, ?_, hvf⟩
        · simp [runERC20, getBalancesOfAsync, assertGetBalancesOf,
            checkAddress_ok _ h1, hv]
        · exact List.mem_cons_of_mem _
            (List.mem_map_of_mem (fun t => ("tokenAddress", t)) hvm)
      · rw [Bool.not_eq_true] at h1
        refine ⟨⟨"userAddress", u⟩, ?_, by simp [addressArgs], h1⟩
        simp [runERC20, getBalancesOfAsync, assertGetBalancesOf,
          checkAddress_error _ h1, Except.bind]
  | getName t =>
      rcases h with ⟨p, hp, hpf⟩
      simp [addressArgs] at hp
      subst hp
      refine ⟨⟨"tokenAddress", t⟩, ?_, by simp [addressArgs], hpf⟩
      simp [runERC20, getNameAsync, checkAddress_error _ hpf, Except.bind]
  | getSymbol t =>
      rcases h with ⟨p, hp, hpf⟩
      simp [addressArgs] at hp
      subst hp
      refine ⟨⟨"tokenAddress", t⟩, ?_, by simp [addressArgs], hpf⟩
      simp [runERC20, getSymbolAsync, checkAddress_error _ hpf, Except.bind]
  | getTotalSupply t =>
      rcases h with ⟨p, hp, hpf⟩
      simp [addressArgs] at hp
      subst hp
      refine ⟨⟨"tokenAddress", t⟩, ?_, by simp [addressArgs], hpf⟩
      simp [runERC20, getTotalSupplyAsync, checkAddress_error _ hpf, Except.bind]
  | getTotalSupplies ts =>
      have hts : ∃ s ∈ ts, isValidAddress s = false := by
        rcases h with ⟨p, hp, hpf⟩
        simp [addressArgs] at hp
        rcases hp with ⟨t, htm, rfl⟩
        exact ⟨t, htm, hpf⟩
      rcases checkAddressList_error "tokenAddress" hts with ⟨v, hv, hvm, hvf⟩
      refine ⟨⟨"tokenAddress", v⟩, ?_, ?_, hvf⟩
      · simp [runERC20, getTotalSuppliesAsync, assertGetTotalSuppliesAsync, hv]
      · exact List.mem_map_of_mem (fun t => ("tokenAddress", t)) hvm
  | getDecimals t =>
      rcases h with ⟨p, hp, hpf⟩
      simp [addressArgs] at hp
      subst hp
      refine ⟨⟨"tokenAddress", t⟩, ?_, by simp [addressArgs], hpf⟩
      simp [runERC20, getDecimalsAsync, checkAddress_error _ hpf, Except.bind]
  | getAllowance t o s =>
      by_cases h1 : isValidAddress t
      · by_cases h2 : isValidAddress o
        · by_cases h3 : isValidAddress s
          · exfalso
            rcases h with ⟨p, hp, hpf⟩
            simp [addressArgs] at hp
            rcases hp with rfl | rfl | rfl <;> simp_all
          · rw [Bool.not_eq_true] at h3
            refine ⟨⟨"spenderAddress", s⟩, ?_, by simp [addressArgs], h3⟩
            simp [runERC20, getAllowanceAsync, assertGetAllowance,
              checkAddress_ok _ h1, checkAddress_ok _ h2,
              checkAddress_error _ h3, Except.bind]
        · rw [Bool.not_eq_true] at h2
          refine ⟨⟨"ownerAddress", o⟩, ?_, by simp [addressArgs], h2⟩
          simp [runERC20, getAllowanceAsync, assertGetAllowance,
            checkAddress_ok _ h1, checkAddress_error _ h2, Except.bind]
      · rw [Bool.not_eq_true] at h1
        refine ⟨⟨"tokenAddress", t⟩, ?_, by simp [addressArgs], h1⟩
        simp [runERC20, getAllowanceAsync, assertGetAllowance,
          checkAddress_error _ h1, Except.bind]
  | transfer t toA v tx =>
      by_cases h1 : isValidAddress t
      · by_cases h2 : isValidAddress toA
        · exfalso
          rcases h with ⟨p, hp, hpf⟩
          simp [addressArgs] at hp
          rcases hp with rfl | rfl <;> simp_all
        · rw [Bool.not_eq_true] at h2
          refine ⟨⟨"to", toA⟩, ?_, by simp [addressArgs], h2⟩
          simp [runERC20, transferAsync, assertTransfer,
            checkAddress_ok _ h1, checkAddress_error _ h2, Except.bind]
      · rw [Bool.not_eq_true] at h1
        refine ⟨⟨"tokenAddress", t⟩, ?_, by simp [addressArgs], h1⟩
        simp [runERC20, transferAsync, assertTransfer,
          checkAddress_error _ h1, Except.bind]
  | transferFrom t f toA v tx =>
      by_cases h1 : isValidAddress t
      · by_cases h2 : isValidAddress f
        · by_cases h3 : isValidAddress toA
          · exfalso
            rcases h with ⟨p, hp, hpf⟩
            simp [addressArgs] at hp
            rcases hp with rfl | rfl | rfl <;> simp_all
          · rw [Bool.not_eq_true] at h3
            refine ⟨⟨"to", toA⟩, ?_, by simp [addressArgs], h3⟩
            simp [runERC20, transferFromAsync, assertTransferFrom,
              checkAddress_ok _ h1, checkAddress_ok _ h2,
              checkAddress_error _ h3, Except.bind]
        · rw [Bool.not_eq_true] at h2
          refine ⟨⟨"from", f⟩, ?_, by simp [addressArgs], h2⟩
          simp [runERC20, transferFromAsync, assertTransferFrom,
            checkAddress_ok _ h1, checkAddress_error _ h2, Except.bind]
      · rw [Bool.not_eq_true] at h1
        refine ⟨⟨"tokenAddress", t⟩, ?_, by simp [addressArgs], h1⟩
        simp [runERC20, transferFromAsync, assertTransferFrom,
          checkAddress_error _ h1, Except.bind]
  | approve t s v tx =>
      by_cases h1 : isValidAddress t
      · by_cases h2 : isValidAddress s
        · exfalso
          rcases h with ⟨p, hp, hpf⟩
          simp [addressArgs] at hp
          rcases hp with rfl | rfl <;> simp_all
        · rw [Bool.not_eq_true] at h2
          refine ⟨⟨"spenderAddress", s⟩, ?_, by simp [addressArgs], h2⟩
          simp [runERC20, approveAsync, assertApprove,
            checkAddress_ok _ h1, checkAddress_error _ h2, Except.bind]
      · rw [Bool.not_eq_true] at h1
        refine ⟨⟨"tokenAddress", t⟩, ?_, by simp [addressArgs], h1⟩
        simp [runERC20, approveAsync, assertApprove,
          checkAddress_error _ h1, Except.bind]

/-- C3 witness: `getBalanceOfAsync` with a malformed token address is
rejected locally, naming `tokenAddress`. -/
theorem erc20_invalid_address_rejected_locally_witness :
    ∃ e, runERC20 (ERC20Call.getBalanceOf "0xZZ"
        "0x1111111111111111111111111111111111111111") = Except.error e ∧
      (e.argName, e.value) ∈ addressArgs (ERC20Call.getBalanceOf "0xZZ"
        "0x1111111111111111111111111111111111111111") ∧
      isValidAddress e.value = false :=
  erc20_invalid_address_rejected_locally
    (ERC20Call.getBalanceOf "0xZZ" "0x1111111111111111111111111111111111111111")
    ⟨("tokenAddress", "0xZZ"), by simp [addressArgs], by decide⟩

/-! ## Remote calls and error propagation -/

/-- Rendering of a local validation error into the message surfaced to the
caller.  Modelled from the spec: local validation errors are deterministic,
synchronous, and name the offending argument; their exact wording comes
from the external schema library and plays no role in the claims below. -/
def schemaErrMsg (e : ValErr) : String :=
  "Expected " ++ e.argName ++ " to conform to schema /Address, instead received " ++ e.value

/-- A full facade invocation against a chain transport: the local phase
(`runERC20`) either throws its validation error or yields the remote call
description, which is handed to the transport; the transport's outcome —
including any revert, whose message is the `String` in its error case — is
returned to the caller as is (the facade bodies `return await ...` with no
catch, no rewrapping and no retry). -/
def callFacade {α : Type} (chain : RemoteCall → Except String α) (c : ERC20Call) :
    Except String α :=
  match runERC20 c with
  | Except.error e => Except.error (schemaErrMsg e)
  | Except.ok rc => chain rc

/-- C5. Whenever a facade operation passes local validation and the remote
call fails, the failure surfaced to the caller is exactly the remote
error string: the same `String` the transport produced, with no local
rewording, classification or added content.  This holds for every facade
method and every remote outcome. -/
theorem facade_remote_error_passthrough {α : Type}
    (chain : RemoteCall → Except String α) (c : ERC20Call) (rc : RemoteCall)
    (s : String) (hok : runERC20 c = Except.ok rc)
    (hrev : chain rc = Except.error s) :
    callFacade chain c = Except.error s := by
  simp [callFacade, hok, hrev]

/-- C5 witness: a `getNameAsync` call with a well-formed address surfaces a
remote revert message verbatim. -/
theorem facade_remote_error_passthrough_witness :
    callFacade (fun _ => (Except.error
        "Rebalancing token at 0x2222222222222222222222222222222222222222 must be in Rebalance state to call that function." :
          Except String String))
      (ERC20Call.getName "0x1111111111111111111111111111111111111111") =
      Except.error
        "Rebalancing token at 0x2222222222222222222222222222222222222222 must be in Rebalance state to call that function." :=
  facade_remote_error_passthrough _
    (ERC20Call.getName "0x1111111111111111111111111111111111111111")
    (RemoteCall.nameOf "0x1111111111111111111111111111111111111111") _
    (by rfl) rfl

/-- Modelled from the spec: invoking a method on a resolved handle issues
the remote call lazily; it fails (decoding failure or revert) when no
contract lives at the handle's address or the deployed contract does not
match the handle's ABI kind.  The chain is abstracted as a partial map
from addresses to the kind of contract deployed there. -/
def invokeHandle (chain : String → Option ContractKind) (h : Handle) :
    Except String Unit :=
  match chain h.address with
  | none => Except.error ("Cannot read contract data at " ++ h.address)
  | some k =>
      if k = h.kind then Except.ok ()
      else Except.error ("Contract at " ++ h.address ++ " reverted the call")

/-- C6. The resolver's load operation never fails: for every kind, every
address string — including strings that fail the address pattern, since no
validation of any sort is performed — and every cache state it returns a
handle; on a cache miss the fresh handle is bound to the requested address
and kind whether or not the address is well-formed and whether or not any
contract exists there; a non-existent contract surfaces an error only once
a method is invoked on the returned handle. -/
theorem loadContract_never_errors_lazy_failure (k : ContractKind) (a : String)
    (st : WrapperState) (chain : String → Option ContractKind) :
    (∃ h st', loadContract k a st = (h, st')) ∧
    (st.cache.lookup (cacheKey k a) = none →
      (loadContract k a st).1.address = a ∧ (loadContract k a st).1.kind = k) ∧
    (chain a = none → (loadContract k a st).1.address = a →
      invokeHandle chain (loadContract k a st).1 =
        Except.error ("Cannot read contract data at " ++ a)) := by
  refine ⟨⟨(loadContract k a st).1, (loadContract k a st).2, rfl⟩, ?_, ?_⟩
  · intro hmiss
    simp [loadContract, hmiss]
  · intro hc haddr
    simp [invokeHandle, haddr, hc]

/-- C6 witness: loading at the malformed address string "not-an-address"
against a fresh wrapper succeeds and binds the handle to that string; on a
chain with no contract anywhere, the failure appears only at invocation. -/
theorem loadContract_never_errors_lazy_failure_witness :
    (∃ h st', loadContract ContractKind.Core "not-an-address" WrapperState.empty =
      (h, st')) ∧
    (loadContract ContractKind.Core "not-an-address" WrapperState.empty).1.address =
      "not-an-address" ∧
    invokeHandle (fun _ => none)
      (loadContract ContractKind.Core "not-an-address" WrapperState.empty).1 =
      Except.error ("Cannot read contract data at " ++ "not-an-address") := by
  have h := loadContract_never_errors_lazy_failure ContractKind.Core
    "not-an-address" WrapperState.empty (fun _ => none)
  exact ⟨h.1, (h.2.1 rfl).1, h.2.2 rfl (h.2.1 rfl).1⟩

/-! ## Batch reads (ProtocolViewerWrapper) -/

/-- `ProtocolViewerWrapper.batchFetchSupplies`: resolves the viewer handle
and forwards the token-address list to the viewer contract unchanged,
returning the contract's response array as is.  The external ProtocolViewer
contract is abstracted as a per-address supply oracle, so its response is
the pointwise image of the submitted list. -/
def batchFetchSupplies (supplyOf : String → Nat) (tokenAddresses : List String) :
    List Nat :=
  tokenAddresses.map supplyOf

/-- `ProtocolViewerWrapper.batchFetchBalancesOf`: same shape, with a
per-(token, owner) balance oracle for the external viewer contract. -/
def batchFetchBalancesOf (balanceOf : String → String → Nat)
    (tokenAddresses : List String) (owner : String) : List Nat :=
  tokenAddresses.map (fun t => balanceOf t owner)

/-- C10. The batch read operations return exactly one result per submitted
address, in submission order, with no filtering of zero-valued entries:
the i-th result is the queried value of the i-th submitted address, and the
ERC20 facade forwards the submitted list to the viewer verbatim (same list,
same order) once its entries pass validation. -/
theorem batch_reads_aligned_unfiltered (supplyOf : String → Nat)
    (balanceOf : String → String → Nat) (tokenAddresses : List String)
    (owner : String)
    (hvalid : ∀ t ∈ tokenAddresses, isValidAddress t = true)
    (howner : isValidAddress owner = true) :
    (batchFetchSupplies supplyOf tokenAddresses).length = tokenAddresses.length ∧
    (∀ i : Nat, (batchFetchSupplies supplyOf tokenAddresses)[i]? =
      (tokenAddresses[i]?).map supplyOf) ∧
    (batchFetchBalancesOf balanceOf tokenAddresses owner).length =
      tokenAddresses.length ∧
    (∀ i : Nat, (batchFetchBalancesOf balanceOf tokenAddresses owner)[i]? =
      (tokenAddresses[i]?).map (fun t => balanceOf t owner)) ∧
    runERC20 (ERC20Call.getTotalSupplies tokenAddresses) =
      Except.ok (RemoteCall.batchFetchSupplies tokenAddresses) ∧
    runERC20 (ERC20Call.getBalancesOf tokenAddresses owner) =
      Except.ok (RemoteCall.batchFetchBalancesOf tokenAddresses owner) := by
  have hlist : checkAddressList "tokenAddress" tokenAddresses = Except.ok () := by
    induction tokenAddresses with
    | nil => rfl
    | cons t rest ih =>
        have ht := hvalid t (List.mem_cons_self t rest)
        have := ih (fun s hs => hvalid s (List.mem_cons_of_mem t hs))
        simp [checkAddressList, checkAddress_ok _ ht, this]
  refine ⟨List.length_map _ _, ?_, List.length_map _ _, ?_, ?_, ?_⟩
  · intro i
    simp [batchFetchSupplies, List.getElem?_map]
  · intro i
    simp [batchFetchBalancesOf, List.getElem?_map]
  · simp [runERC20, getTotalSuppliesAsync, assertGetTotalSuppliesAsync, hlist]
  · simp [runERC20, getBalancesOfAsync, assertGetBalancesOf,
      checkAddress_ok _ howner, hlist]

/-- C10 witness: two addresses, one with zero supply; both entries are
present, aligned, and unfiltered. -/
theorem batch_reads_aligned_unfiltered_witness :
    (batchFetchSupplies
        (fun t => if t = "0x1111111111111111111111111111111111111111" then 0 else 7)
        ["0x1111111111111111111111111111111111111111",
         "0x2222222222222222222222222222222222222222"]).length = 2 ∧
    (batchFetchSupplies
        (fun t => if t = "0x1111111111111111111111111111111111111111" then 0 else 7)
        ["0x1111111111111111111111111111111111111111",
         "0x2222222222222222222222222222222222222222"])[0]? = some 0 := by
  have h := batch_reads_aligned_unfiltered
    (fun t => if t = "0x1111111111111111111111111111111111111111" then 0 else 7)
    (fun _ _ => 0)
    ["0x1111111111111111111111111111111111111111",
     "0x2222222222222222222222222222222222222222"]
    "0x3333333333333333333333333333333333333333"
    (by intro t ht; fin_cases ht <;> rfl) (by rfl)
  refine ⟨h.1, ?_⟩
  have h0 := h.2.1 0
  simpa using h0

/-! ## Token-flow reshaping (RebalancingAPI.getBidPriceAsync) -/

/-- One entry of a token-flows view: the component token's address and its
flow unit. -/
structure TokenFlow where
  component : String
  unit : Nat
deriving DecidableEq

/-- The named result object `TokenFlowsDetails` returned by
`getBidPriceAsync`. -/
structure TokenFlowsDetails where
  inflow : List TokenFlow
  outflow : List TokenFlow
deriving DecidableEq

/-- Modelled from the spec: the reshaping step of the rebalancing facade's
`getBidPriceAsync` (its implementation file is not among the sources; only
its integration tests are): the raw on-chain unit array is paired
positionally with the combined token array, entries whose unit is zero are
omitted, and each remaining entry carries the unit and token address of
its raw position. -/
def toTokenFlows (combinedTokens : List String) (units : List Nat) :
    List TokenFlow :=
  ((combinedTokens.zip units).filter (fun p => p.2 != 0)).map
    (fun p => ⟨p.1, p.2⟩)

/-- Modelled from the spec: `getBidPriceAsync` reshapes the raw
`getBidPrice` tuple (inflow unit array, outflow unit array) against the
combined token array into a `TokenFlowsDetails`. -/
def getBidPriceTokenFlows (combinedTokens : List String)
    (inflowUnits outflowUnits : List Nat) : TokenFlowsDetails :=
  ⟨toTokenFlows combinedTokens inflowUnits, toTokenFlows combinedTokens outflowUnits⟩

theorem toTokenFlows_sound (ts : List String) (us : List Nat) :
    ∀ f ∈ toTokenFlows ts us, f.unit ≠ 0 ∧
      ∃ i : Nat, ts[i]? = some f.component ∧ us[i]? = some f.unit := by
  intro f hf
  rcases List.mem_map.mp hf with ⟨p, hpmem, rfl⟩
  rcases List.mem_filter.mp hpmem with ⟨hpz, hpne⟩
  refine ⟨by simpa using hpne, ?_⟩
  rcases List.mem_iff_getElem?.mp hpz with ⟨i, hi⟩
  rcases (List.getElem?_zip_eq_some.mp hi) with ⟨h₁, h₂⟩
  exact ⟨i, h₁, h₂⟩

theorem toTokenFlows_complete (ts : List String) (us : List Nat)
    (i : Nat) (c : String) (u : Nat) (hc : ts[i]? = some c)
    (hu : us[i]? = some u) (hne : u ≠ 0) :
    TokenFlow.mk c u ∈ toTokenFlows ts us := by
  have hz : (ts.zip us)[i]? = some (c, u) := List.getElem?_zip_eq_some.mpr ⟨hc, hu⟩
  have hmem : (c, u) ∈ ts.zip us := List.mem_iff_getElem?.mpr ⟨i, hz⟩
  exact List.mem_map.mpr
    ⟨(c, u), List.mem_filter.mpr ⟨hmem, by simpa using hne⟩, rfl⟩

/-- C4. The token-flows result of `getBidPriceAsync` contains no zero-unit
entry: every entry's unit is non-zero and is, together with its token
address, read off a raw position of the on-chain arrays; conversely every
raw position with a non-zero unit contributes its entry, so exactly the
zero-unit raw entries are omitted.  This holds for both the inflow and the
outflow sides. -/
theorem getBidPrice_flows_filter_zero_units (combinedTokens : List String)
    (inflowUnits outflowUnits : List Nat) :
    (∀ f ∈ (getBidPriceTokenFlows combinedTokens inflowUnits outflowUnits).inflow,
        f.unit ≠ 0 ∧ ∃ i : Nat, combinedTokens[i]? = some f.component ∧
          inflowUnits[i]? = some f.unit) ∧
    (∀ f ∈ (getBidPriceTokenFlows combinedTokens inflowUnits outflowUnits).outflow,
        f.unit ≠ 0 ∧ ∃ i : Nat, combinedTokens[i]? = some f.component ∧
          outflowUnits[i]? = some f.unit) ∧
    (∀ (i : Nat) (c : String) (u : Nat), combinedTokens[i]? = some c →
        inflowUnits[i]? = some u → u ≠ 0 →
        TokenFlow.mk c u ∈
          (getBidPriceTokenFlows combinedTokens inflowUnits outflowUnits).inflow) ∧
    (∀ (i : Nat) (c : String) (u : Nat), combinedTokens[i]? = some c →
        outflowUnits[i]? = some u → u ≠ 0 →
        TokenFlow.mk c u ∈
          (getBidPriceTokenFlows combinedTokens inflowUnits outflowUnits).outflow) :=
  ⟨toTokenFlows_sound combinedTokens inflowUnits,
   toTokenFlows_sound combinedTokens outflowUnits,
   fun i c u hc hu hne => toTokenFlows_complete combinedTokens inflowUnits i c u hc hu hne,
   fun i c u hc hu hne => toTokenFlows_complete combinedTokens outflowUnits i c u hc hu hne⟩

/-- C4 witness: with two raw positions of which one has a zero inflow unit,
the zero entry is omitted and the non-zero entry is kept with its address
and unit. -/
theorem getBidPrice_flows_filter_zero_units_witness :
    TokenFlow.mk "0x2222222222222222222222222222222222222222" 5 ∈
      (getBidPriceTokenFlows
        ["0x1111111111111111111111111111111111111111",
         "0x2222222222222222222222222222222222222222"] [0, 5] [3, 0]).inflow ∧
    (∀ f ∈ (getBidPriceTokenFlows
        ["0x1111111111111111111111111111111111111111",
         "0x2222222222222222222222222222222222222222"] [0, 5] [3, 0]).inflow,
      f.unit ≠ 0) := by
  have h := getBidPrice_flows_filter_zero_units
    ["0x1111111111111111111111111111111111111111",
     "0x2222222222222222222222222222222222222222"] [0, 5] [3, 0]
  exact ⟨h.2.2.1 1 "0x2222222222222222222222222222222222222222" 5 rfl rfl
    (by decide), fun f hf => (h.1 f hf).1⟩

/-! ## State-gated rebalancing operations -/

/-- Whether `needle` is a prefix of `hay`, over character lists. -/
def charsHavePre : List Char → List Char → Bool
  | _, [] => true
  | [], _ :: _ => false
  | a :: as, b :: bs => a == b && charsHavePre as bs

/-- Whether `needle` occurs contiguously inside `hay`, over character
lists. -/
def charsContain : List Char → List Char → Bool
  | [], needle => needle.isEmpty
  | a :: as, needle => charsHavePre (a :: as) needle || charsContain as needle

/-- Whether `needle` is a contiguous substring of `hay`. -/
def strHasSub (hay needle : String) : Bool :=
  charsContain hay.data needle.data

/-- The externally tracked lifecycle states of a rebalancing set token. -/
inductive RebalanceState where
  | Default
  | Proposal
  | Rebalance
  | Drawdown
deriving DecidableEq

/-- The state names as they appear in surfaced error strings. -/
def stateName : RebalanceState → String
  | .Default => "Default"
  | .Proposal => "Proposal"
  | .Rebalance => "Rebalance"
  | .Drawdown => "Drawdown"

/-- The state-gated operations of the rebalancing facade. -/
inductive RebalancingOp where
  | propose
  | startRebalance
  | settleRebalance
  | bid
  | endFailedAuction
  | redeemFromFailedRebalance
deriving DecidableEq

/-- The state each gated operation requires, as named by the surfaced
error strings of the integration tests.  `propose`'s gate does not take
this form (see `stateGateError`); its entry here is unused. -/
def requiredState : RebalancingOp → RebalanceState
  | .propose => .Default
  | .startRebalance => .Proposal
  | .settleRebalance => .Rebalance
  | .bid => .Rebalance
  | .endFailedAuction => .Rebalance
  | .redeemFromFailedRebalance => .Drawdown

/-- The wrong-state error message of the five uniform gates. -/
def wrongStateMsg (address : String) (req : RebalanceState) : String :=
  "Rebalancing token at " ++ address ++ " must be in " ++ stateName req ++
    " state to call that function."

/-- Modelled from the spec and the integration tests: the error surfaced
when a state-gated rebalancing facade operation is invoked against a token
in the wrong tracked state (the facade implementation file is not among
the sources; the message strings are those the tests match in full).
`none` means the gate passes.  For the five operations other than
`propose` the message names the token address and the required state; for
`propose` invoked during a rebalance the tests match a different message
that names the address but no required state. -/
def stateGateError : RebalancingOp → String → RebalanceState → Option String
  | .propose, a, current =>
      if current = RebalanceState.Rebalance then
        some ("Rebalancing token at " ++ a ++ " is currently in rebalancing state." ++
          " Issue, Redeem, and propose functionality is not available during this time")
      else none
  | op, a, current =>
      if current = requiredState op then none
      else some (wrongStateMsg a (requiredState op))

set_option maxRecDepth 40000 in
/-- C7 (counterexample). `propose` invoked while the token is in Rebalance
state fails, but its error message names no required state: it contains
neither the phrase "must be in" nor any of the state names "Default",
"Proposal" or "Drawdown"; it does name the token's address.  So not every
state-gated operation's wrong-state error names the required state. -/
theorem propose_wrong_state_message_lacks_required_state :
    (stateGateError RebalancingOp.propose
        "0x4444444444444444444444444444444444444444" RebalanceState.Rebalance).isSome
      = true ∧
    strHasSub ((stateGateError RebalancingOp.propose
        "0x4444444444444444444444444444444444444444" RebalanceState.Rebalance).getD "")
      "must be in" = false ∧
    strHasSub ((stateGateError RebalancingOp.propose
        "0x4444444444444444444444444444444444444444" RebalanceState.Rebalance).getD "")
      "Default" = false ∧
    strHasSub ((stateGateError RebalancingOp.propose
        "0x4444444444444444444444444444444444444444" RebalanceState.Rebalance).getD "")
      "Proposal" = false ∧
    strHasSub ((stateGateError RebalancingOp.propose
        "0x4444444444444444444444444444444444444444" RebalanceState.Rebalance).getD "")
      "Drawdown" = false ∧
    strHasSub ((stateGateError RebalancingOp.propose
        "0x4444444444444444444444444444444444444444" RebalanceState.Rebalance).getD "")
      "0x4444444444444444444444444444444444444444" = true := by
  refine ⟨rfl, ?_, ?_, ?_, ?_, ?_⟩ <;> rfl

/-- C7 (amended). For the five state-gated operations other than `propose`
(startRebalance, settleRebalance, bid, endFailedAuction,
redeemFromFailedRebalance), invocation in any state other than the
required one fails with the message naming the token address and the
required state, and invocation in the required state passes the gate;
`propose` invoked during Rebalance state fails with a message naming the
address and reporting that the token is currently rebalancing. -/
theorem state_gate_error_messages (op : RebalancingOp) (a : String)
    (s : RebalanceState) (hop : op ≠ RebalancingOp.propose)
    (hs : s ≠ requiredState op) :
    stateGateError op a s = some (wrongStateMsg a (requiredState op)) ∧
    stateGateError op a (requiredState op) = none ∧
    stateGateError RebalancingOp.propose a RebalanceState.Rebalance =
      some ("Rebalancing token at " ++ a ++ " is currently in rebalancing state." ++
        " Issue, Redeem, and propose functionality is not available during this time") := by
  refine ⟨?_, ?_, rfl⟩ <;>
    cases op <;> simp_all [stateGateError, requiredState]

/-- C7 witness: `bid` in Default state fails with the message naming the
address and the required Rebalance state; `bid` in Rebalance state passes. -/
theorem state_gate_error_messages_witness :
    stateGateError RebalancingOp.bid
        "0x5555555555555555555555555555555555555555" RebalanceState.Default =
      some (wrongStateMsg "0x5555555555555555555555555555555555555555"
        RebalanceState.Rebalance) ∧
    stateGateError RebalancingOp.bid
        "0x5555555555555555555555555555555555555555" RebalanceState.Rebalance = none := by
  have h := state_gate_error_messages RebalancingOp.bid
    "0x5555555555555555555555555555555555555555" RebalanceState.Default
    (by decide) (by decide)
  exact ⟨h.1, h.2.1⟩

/-! ## Rebalancing-manager allocation gate -/

/-- Modelled from the spec: the BTCETH rebalancing manager's propose
trigger check (the manager API implementation file is not among the
sources; the message is the one its integration test matches in full).
When the tracked BTC allocation percentage lies within the configured
lower and upper thresholds, propose fails with a message interpolating
the computed percentage and both bounds; otherwise the gate passes. -/
def proposeAllocationGate (pct lower upper : Nat) : Option String :=
  if lower ≤ pct ∧ pct ≤ upper then
    some ("Current BTC allocation " ++ toString pct ++
      "% must be outside allocation bounds " ++ toString lower ++ " and " ++
      toString upper ++ ".")
  else none

/-- C8. Whenever the tracked allocation percentage lies within the
configured bounds, the propose gate fails with the specific message
interpolating the current computed percentage (with its percent sign) and
both configured bound values — not a generic error. -/
theorem propose_allocation_within_bounds_error (pct lower upper : Nat)
    (h1 : lower ≤ pct) (h2 : pct ≤ upper) :
    proposeAllocationGate pct lower upper =
      some ("Current BTC allocation " ++ toString pct ++
        "% must be outside allocation bounds " ++ toString lower ++ " and " ++
        toString upper ++ ".") := by
  simp [proposeAllocationGate, h1, h2]

/-- C8 witness: the integration test's scenario — allocation 49%, bounds
48 and 52 — produces exactly the message the test expects. -/
theorem propose_allocation_within_bounds_error_witness :
    proposeAllocationGate 49 48 52 =
      some "Current BTC allocation 49% must be outside allocation bounds 48 and 52." := by
  rw [propose_allocation_within_bounds_error 49 48 52 (by decide) (by decide)]
  rfl

/-! ## Rebalancing-set issuance and redemption (round trip) -/

/-- Caller-observable balances in the issuance model: per-component wallet
balances, base-set balance in the wallet, base-set balance attributed to
the caller in the vault, and the rebalancing-set balance. -/
structure IssuanceState where
  componentBal : Nat → Nat
  baseBal : Nat
  vaultBaseBal : Nat
  rbBal : Nat

/-- The least multiple of `B` that is at least `b`. -/
def roundUpToMultiple (b B : Nat) : Nat := b + (B - b % B) % B

/-- Modelled from the spec: `issueRebalancingSet` of the rebalancing-set
issuance module (an external pre-deployed contract; its accounting is the
one asserted by the wrapper integration tests).  Issuing quantity `q` of a
rebalancing set with unit shares `u` and natural unit `N` over a base set
with natural unit `B` and per-natural-unit component units `units` requires
`b = q * u / N` base sets; the module mints the base set from the caller's
components in the least `B`-multiple covering `b`, deposits `b` to mint the
rebalancing set, and explicitly returns the leftover base set ("change") to
the caller's wallet, or to the caller's vault balance when
`keepChangeInVault` is set. -/
def issueRebalancingSet (units : Nat → Nat) (B u N : Nat)
    (keepChangeInVault : Bool) (q : Nat) (st : IssuanceState) : IssuanceState :=
  let b := q * u / N
  let minted := roundUpToMultiple b B
  ⟨fun i => st.componentBal i - minted / B * units i,
   st.baseBal + (cond keepChangeInVault 0 (minted - b)),
   st.vaultBaseBal + (cond keepChangeInVault (minted - b) 0),
   st.rbBal + q⟩

/-- Modelled from the spec: `redeemRebalancingSet` of the same module.
Redeeming quantity `q` releases `b = q * u / N` base sets; the module
redeems the largest `B`-multiple of them into the caller's wallet
components and explicitly returns the non-redeemable base-set remainder
("change") to the caller's wallet, or to the vault when
`keepChangeInVault` is set. -/
def redeemRebalancingSet (units : Nat → Nat) (B u N : Nat)
    (keepChangeInVault : Bool) (q : Nat) (st : IssuanceState) : IssuanceState :=
  let b := q * u / N
  ⟨fun i => st.componentBal i + b / B * units i,
   st.baseBal + (cond keepChangeInVault 0 (b % B)),
   st.vaultBaseBal + (cond keepChangeInVault (b % B) 0),
   st.rbBal - q⟩

theorem roundUp_spec (b B : Nat) (hB : 0 < B) :
    roundUpToMultiple b B - b + b % B = (if b % B = 0 then 0 else B) ∧
    roundUpToMultiple b B / B = b / B + (if b % B = 0 then 0 else B) / B := by
  have hdm : B * (b / B) + b % B = b := Nat.div_add_mod b B
  by_cases hr : b % B = 0
  · have hm : roundUpToMultiple b B = b := by
      simp [roundUpToMultiple, hr, Nat.mod_self]
    rw [hm, hr]
    simp
  · have hrB : b % B < B := Nat.mod_lt b hB
    have h1 : (B - b % B) % B = B - b % B := Nat.mod_eq_of_lt (by omega)
    have hm : roundUpToMultiple b B = b + (B - b % B) := by
      rw [roundUpToMultiple, h1]
    constructor
    · rw [if_neg hr, hm, Nat.add_sub_cancel_left,
        Nat.sub_add_cancel (Nat.le_of_lt hrB)]
    · have hmul : roundUpToMultiple b B = B * (b / B + 1) :=
        calc roundUpToMultiple b B = b + (B - b % B) := hm
          _ = B * (b / B) + b % B + (B - b % B) := by rw [hdm]
          _ = B * (b / B) + (b % B + (B - b % B)) := by rw [Nat.add_assoc]
          _ = B * (b / B) + B := by rw [Nat.add_sub_cancel' (Nat.le_of_lt hrB)]
          _ = B * (b / B + 1) := by rw [Nat.mul_add, Nat.mul_one]
      rw [hmul, Nat.mul_div_cancel_left _ hB, if_neg hr, Nat.div_self hB]

theorem sub_acct (bal x y : Nat) (h : x + y ≤ bal) :
    bal - (x + y) + x + y = bal := by omega

theorem add_acct (v a r c : Nat) (h : a + r = c) : v + a + r = v + c := by omega

/-- C9. Issuing a quantity of a rebalancing set and then redeeming the
same quantity returns the caller's rebalancing-set balance and base-set
component balances to their pre-issuance values, except for the base-set
change: a quantity `change` of the base set (zero when the required base
amount divides the base natural unit, one natural unit otherwise) is
explicitly returned to the caller — held in the wallet, or in the vault
when `keepChangeInVault` is set — and accounts exactly for the one
natural-unit-worth of components not returned. -/
theorem issue_redeem_round_trip (units : Nat → Nat) (B u N q : Nat)
    (keepChangeInVault : Bool) (st : IssuanceState) (hB : 0 < B)
    (hbal : ∀ i, roundUpToMultiple (q * u / N) B / B * units i ≤ st.componentBal i) :
    (redeemRebalancingSet units B u N keepChangeInVault q
        (issueRebalancingSet units B u N keepChangeInVault q st)).rbBal = st.rbBal ∧
    (∀ i, (redeemRebalancingSet units B u N keepChangeInVault q
        (issueRebalancingSet units B u N keepChangeInVault q st)).componentBal i +
      (if (q * u / N) % B = 0 then 0 else B) / B * units i = st.componentBal i) ∧
    (keepChangeInVault = true →
      (redeemRebalancingSet units B u N keepChangeInVault q
          (issueRebalancingSet units B u N keepChangeInVault q st)).vaultBaseBal =
        st.vaultBaseBal + (if (q * u / N) % B = 0 then 0 else B) ∧
      (redeemRebalancingSet units B u N keepChangeInVault q
          (issueRebalancingSet units B u N keepChangeInVault q st)).baseBal =
        st.baseBal) ∧
    (keepChangeInVault = false →
      (redeemRebalancingSet units B u N keepChangeInVault q
          (issueRebalancingSet units B u N keepChangeInVault q st)).baseBal =
        st.baseBal + (if (q * u / N) % B = 0 then 0 else B) ∧
      (redeemRebalancingSet units B u N keepChangeInVault q
          (issueRebalancingSet units B u N keepChangeInVault q st)).vaultBaseBal =
        st.vaultBaseBal) := by
  have hspec := roundUp_spec (q * u / N) B hB
  refine ⟨?_, ?_, ?_, ?_⟩
  · simp [redeemRebalancingSet, issueRebalancingSet]
  · intro i
    have hb := hbal i
    simp only [redeemRebalancingSet, issueRebalancingSet]
    rw [hspec.2] at hb ⊢
    rw [Nat.add_mul] at hb ⊢
    exact sub_acct (st.componentBal i) _ _ hb
  · intro hk
    subst hk
    simp only [redeemRebalancingSet, issueRebalancingSet, Bool.cond_true]
    exact ⟨add_acct _ _ _ _ hspec.1, by simp⟩
  · intro hk
    subst hk
    simp only [redeemRebalancingSet, issueRebalancingSet, Bool.cond_false]
    exact ⟨add_acct _ _ _ _ hspec.1, by simp⟩

/-- C9 witness: the integration test's change scenario in small numbers —
base natural unit 10, unit shares 10, rebalancing natural unit 10,
quantity 15, so 15 base sets are required and change of one base natural
unit (10) is returned to the wallet; components are restored up to that
change. -/
theorem issue_redeem_round_trip_witness :
    (redeemRebalancingSet (fun _ => 2) 10 10 10 false 15
        (issueRebalancingSet (fun _ => 2) 10 10 10 false 15
          ⟨fun _ => 100, 0, 0, 0⟩)).rbBal = 0 ∧
    (redeemRebalancingSet (fun _ => 2) 10 10 10 false 15
        (issueRebalancingSet (fun _ => 2) 10 10 10 false 15
          ⟨fun _ => 100, 0, 0, 0⟩)).componentBal 0 +
      (if (15 * 10 / 10) % 10 = 0 then 0 else 10) / 10 * 2 = 100 ∧
    (redeemRebalancingSet (fun _ => 2) 10 10 10 false 15
        (issueRebalancingSet (fun _ => 2) 10 10 10 false 15
          ⟨fun _ => 100, 0, 0, 0⟩)).baseBal = 0 + 10 := by
  have h := issue_redeem_round_trip (fun _ => 2) 10 10 10 15 false
    ⟨fun _ => 100, 0, 0, 0⟩ (by decide)
    (fun i => by show roundUpToMultiple (15 * 10 / 10) 10 / 10 * 2 ≤ 100; decide)
  refine ⟨h.1, h.2.1 0, ?_⟩
  have h4 := (h.2.2.2 rfl).1
  simpa using h4
